import Mathlib

/-!
Formal model of the Restro Keyboard input-method core (`src/main.rs`).

The development shallowly embeds the three core pieces of the program:

* the static phonetic rule table `PHONETIC_MAP` (main.rs:55-143);
* the transliteration engine `process_keyboard_input` (main.rs:686-781);
* the keydown half of the low-level hook `keyboard_hook_proc`
  (main.rs:453-582), including the lock/sleep/synthesis ordering of each
  path as an explicit action trace.

Buffers only ever hold ASCII characters produced by the hook's key
extraction (lowercased letters and the digit-value characters), so Rust's
byte length, byte slicing and `chars().nth` all agree with plain
`List Char` indexing; the buffer is therefore modelled as `List Char`.
`usize` subtraction is modelled with release-profile wrapping semantics,
namely arithmetic modulo `2 ^ 64`.
-/

/-- `KeyboardSettings` (main.rs:17-27).  The `font_size : f32` field is
omitted: it is floating point and is never read by the hook or the engine. -/
structure KeyboardSettings where
  enabled : Bool
  layout : String
  current_language : String
  use_suggestions : Bool
  hotkey_enabled : Bool
  theme : String
  intercept_all : Bool
deriving DecidableEq

/-- `BanglaChar` (main.rs:29-36). -/
inductive BanglaChar where
  | Vowel (s : String)
  | Consonant (s : String)
  | VowelSign (s : String)
  | Number (s : String)
  | Special (s : String)
deriving DecidableEq

/-- The insertion sequence building `PHONETIC_MAP` (main.rs:55-143).  The
keys are pairwise distinct, so an association list has exactly the lookup
behaviour of the `HashMap`. -/
def PHONETIC_MAP_entries : List (String × BanglaChar) :=
  [ ("a", BanglaChar.Vowel "অ"), ("aa", BanglaChar.Vowel "আ"),
    ("A", BanglaChar.Vowel "আ"), ("i", BanglaChar.Vowel "ই"),
    ("ii", BanglaChar.Vowel "ঈ"), ("I", BanglaChar.Vowel "ঈ"),
    ("u", BanglaChar.Vowel "উ"), ("uu", BanglaChar.Vowel "ঊ"),
    ("U", BanglaChar.Vowel "ঊ"), ("rri", BanglaChar.Vowel "ঋ"),
    ("e", BanglaChar.Vowel "এ"), ("E", BanglaChar.VowelSign "ে"),
    ("oi", BanglaChar.Vowel "ঐ"), ("OI", BanglaChar.Vowel "ঐ"),
    ("o", BanglaChar.Vowel "ও"), ("O", BanglaChar.VowelSign "ো"),
    ("ou", BanglaChar.Vowel "ঔ"), ("OU", BanglaChar.Vowel "ঔ"),
    ("k", BanglaChar.Consonant "ক"), ("kh", BanglaChar.Consonant "খ"),
    ("g", BanglaChar.Consonant "গ"), ("gh", BanglaChar.Consonant "ঘ"),
    ("ng", BanglaChar.Consonant "ঙ"), ("c", BanglaChar.Consonant "চ"),
    ("ch", BanglaChar.Consonant "ছ"), ("j", BanglaChar.Consonant "জ"),
    ("jh", BanglaChar.Consonant "ঝ"), ("ny", BanglaChar.Consonant "ঞ"),
    ("t", BanglaChar.Consonant "ট"), ("th", BanglaChar.Consonant "ঠ"),
    ("d", BanglaChar.Consonant "ড"), ("dh", BanglaChar.Consonant "ঢ"),
    ("n", BanglaChar.Consonant "ন"), ("p", BanglaChar.Consonant "প"),
    ("ph", BanglaChar.Consonant "ফ"), ("f", BanglaChar.Consonant "ফ"),
    ("b", BanglaChar.Consonant "ব"), ("bh", BanglaChar.Consonant "ভ"),
    ("v", BanglaChar.Consonant "ভ"), ("m", BanglaChar.Consonant "ম"),
    ("z", BanglaChar.Consonant "য"), ("r", BanglaChar.Consonant "র"),
    ("l", BanglaChar.Consonant "ল"), ("sh", BanglaChar.Consonant "শ"),
    ("s", BanglaChar.Consonant "স"), ("h", BanglaChar.Consonant "হ"),
    ("y", BanglaChar.Consonant "য়"), ("kk", BanglaChar.Consonant "ক্ক"),
    ("tt", BanglaChar.Consonant "ত্ত"), ("nn", BanglaChar.Consonant "ন্ন"),
    ("kar_aa", BanglaChar.VowelSign "া"), ("kar_i", BanglaChar.VowelSign "ি"),
    ("kar_ii", BanglaChar.VowelSign "ী"), ("kar_u", BanglaChar.VowelSign "ু"),
    ("kar_uu", BanglaChar.VowelSign "ূ"), ("kar_e", BanglaChar.VowelSign "ে"),
    ("kar_oi", BanglaChar.VowelSign "ৈ"), ("kar_o", BanglaChar.VowelSign "ো"),
    ("kar_ou", BanglaChar.VowelSign "ৌ"),
    ("0", BanglaChar.Number "০"), ("1", BanglaChar.Number "১"),
    ("2", BanglaChar.Number "২"), ("3", BanglaChar.Number "৩"),
    ("4", BanglaChar.Number "৪"), ("5", BanglaChar.Number "৫"),
    ("6", BanglaChar.Number "৬"), ("7", BanglaChar.Number "৭"),
    ("8", BanglaChar.Number "৮"), ("9", BanglaChar.Number "৯"),
    ("chandrabindu", BanglaChar.Special "ঁ"), ("anusvar", BanglaChar.Special "ং"),
    ("bisarga", BanglaChar.Special "ঃ"), ("hasant", BanglaChar.Special "্"),
    ("dari", BanglaChar.Special "।") ]

/-- `PHONETIC_MAP.get(key)` (read-only lookups of the rule table). -/
def PHONETIC_MAP_get (key : String) : Option BanglaChar :=
  PHONETIC_MAP_entries.lookup key

/-- `usize` modulus: machine words are 64 bits wide. -/
def USIZE_MOD : Nat := 2 ^ 64

/-- The index expression `buffer_str.len() - 2` of main.rs:703, as `usize`
subtraction with release-profile wrapping semantics. -/
def sub2_wrapping (l : Nat) : Nat := (l + (USIZE_MOD - 2)) % USIZE_MOD

/-- The single-character lookup deciding whether a character is a mapped
consonant (`matches!(bc, BanglaChar::Consonant(_))` on
`PHONETIC_MAP.get(ch.to_string())`, main.rs:704-705 and 728-738). -/
def is_consonant_char (c : Char) : Bool :=
  match PHONETIC_MAP_get (String.mk [c]) with
  | some (BanglaChar.Consonant _) => true
  | _ => false

/-- The vowel-sign table of the length-1 special case (main.rs:707-714). -/
def vowel_sign_special (substr : String) : Option (String × Nat) :=
  if substr = "a" then some ("", 1)
  else if substr = "i" then some ("ি", 1)
  else if substr = "e" then some ("ে", 1)
  else if substr = "u" then some ("ু", 1)
  else if substr = "o" then some ("ো", 1)
  else none

/-- The independent-vowel to dependent-sign substitution (main.rs:754-765). -/
def dependent_form (c : String) : String :=
  if c = "অ" then ""
  else if c = "আ" then "া"
  else if c = "ই" then "ি"
  else if c = "ঈ" then "ী"
  else if c = "উ" then "ু"
  else if c = "ঊ" then "ূ"
  else if c = "এ" then "ে"
  else if c = "ঐ" then "ৈ"
  else if c = "ও" then "ো"
  else if c = "ঔ" then "ৌ"
  else c

/-- The `output` computation of the general match case (main.rs:743-772). -/
def glyph_output (bc : BanglaChar) (prev_was_consonant : Bool) : String :=
  match bc with
  | BanglaChar.Consonant c => if prev_was_consonant then "্" ++ c else c
  | BanglaChar.VowelSign c => c
  | BanglaChar.Vowel c => if prev_was_consonant then dependent_form c else c
  | BanglaChar.Number c => c
  | BanglaChar.Special c => c

/-- The length-1 special case of the scan loop (main.rs:702-722): when the
candidate is a single character, look at the character before it via the
wrapping index `buffer_str.len() - 2`; if that character is a mapped
consonant, consult the vowel-sign table for the candidate.  `substr`,
bound once in the source, is inlined as `buf.drop (buf.length - len)`. -/
def try_special (buf : List Char) (len : Nat) : Option (String × Nat) :=
  if len = 1 then
    match buf.get? (sub2_wrapping buf.length) with
    | some prev =>
      if is_consonant_char prev then
        vowel_sign_special (String.mk (buf.drop (buf.length - len)))
      else none
    | none => none
  else none

/-- The `prev_was_consonant` computation of the general case
(main.rs:728-741): when the candidate does not cover the whole buffer,
test whether the character immediately before the matched span is a
mapped consonant. -/
def prev_was_consonant (buf : List Char) (len : Nat) : Bool :=
  if len < buf.length then
    match buf.get? (buf.length - len - 1) with
    | some ch => is_consonant_char ch
    | none => false
  else false

/-- The exact rule-table match on the trailing candidate of length `len`
(main.rs:724-776). -/
def try_exact (buf : List Char) (len : Nat) : Option (String × Nat) :=
  match PHONETIC_MAP_get (String.mk (buf.drop (buf.length - len))) with
  | some bc => some (glyph_output bc (prev_was_consonant buf len), len)
  | none => none

/-- One iteration of the scan loop of `process_keyboard_input`
(main.rs:699-777) at candidate length `len`: the length-1 special case for
a vowel key after a mapped consonant, then the exact rule-table match on
the trailing candidate. -/
def try_len (buf : List Char) (len : Nat) : Option (String × Nat) :=
  match try_special buf len with
  | some r => some r
  | none => try_exact buf len

/-- The loop `for len in (1..=min(buffer 3)).rev()` of main.rs:699:
candidate lengths from `k` down to `1`. -/
def match_scan (buf : List Char) : Nat → Option (String × Nat)
  | 0 => none
  | n + 1 =>
    match try_len buf (n + 1) with
    | some r => some r
    | none => match_scan buf n

/-- `process_keyboard_input` (main.rs:686-781).  The mutable `buffer`
argument is modelled by returning the new buffer alongside the result.
`buffer.push_str(key)` is the append `buffer ++ key` (inlined where the
source reads `buffer_str`): an overflowing buffer (length above 5) is
cleared with no match, and a successful scan clears the buffer. -/
def process_keyboard_input (key : List Char) (buffer : List Char) :
    Option (String × Nat) × List Char :=
  if (buffer ++ key).length > 5 then (none, [])
  else
    match match_scan (buffer ++ key) (min (buffer ++ key).length 3) with
    | some r => (some r, [])
    | none => (none, buffer ++ key)

/-- Sequential engine runs: feed the keys one at a time through
`process_keyboard_input`, collecting each call's result. -/
def run_engine : List Char → List Char → List (Option (String × Nat)) × List Char
  | [], buf => ([], buf)
  | k :: ks, buf =>
    let step := process_keyboard_input [k] buf
    let rest := run_engine ks step.2
    (step.1 :: rest.1, rest.2)

/-- Message and virtual-key constants used by the hook (Win32 values). -/
def WM_KEYDOWN : Nat := 0x0100

def WM_KEYUP : Nat := 0x0101

def WM_SYSKEYDOWN : Nat := 0x0104

def WM_SYSKEYUP : Nat := 0x0105

def VK_BACK : Nat := 0x08

def VK_CONTROL : Nat := 0x11

def VK_SPACE : Nat := 0x20

/-- The key extraction of main.rs:523-531: letter codes are folded to
lowercase `a`-`z`; digit codes are mapped through `(vk - 0x30) as u8 as
char`, which yields the control characters `U+0000`-`U+0009` exactly as the
source does. -/
def key_of_vk (vk : Nat) : Option Char :=
  if 0x41 ≤ vk ∧ vk ≤ 0x5A then some (Char.ofNat (vk - 0x41 + 0x61))
  else if 0x30 ≤ vk ∧ vk ≤ 0x39 then some (Char.ofNat (vk - 0x30))
  else none

/-- The global mutable state touched by the hook: `CTRL_PRESSED`,
`BUFFER` and `SETTINGS` (main.rs:40-53). -/
structure HookState where
  ctrl_pressed : Bool
  buffer : List Char
  settings : KeyboardSettings
deriving DecidableEq

/-- Observable actions of one hook invocation, in program order:
acquisitions and releases of the two mutexes, the synthesis calls
(`SendInput` of a backspace pair or of a Unicode character pair), and the
`thread::sleep` delays. -/
inductive HookAction where
  | lockSettings
  | unlockSettings
  | lockBuffer
  | unlockBuffer
  | sendBackspace
  | sendUnicode (c : Char)
  | sleep
deriving DecidableEq

/-- What one hook invocation does besides mutating state: swallow vs.
propagate, how many synthetic backspaces it issues, the Unicode text it
injects, and the full ordered action trace. -/
structure HookResult where
  swallow : Bool
  backspaces : Nat
  inserted : String
  trace : List HookAction
deriving DecidableEq

/-- A propagated event with no synthesis. -/
def pass_result (t : List HookAction) : HookResult :=
  { swallow := false, backspaces := 0, inserted := "", trace := t }

/-- Trace of `simulate_backspace` (main.rs:783-814): one `SendInput` of a
press/release pair, no internal delay. -/
def simulate_backspace_trace : List HookAction := [HookAction.sendBackspace]

/-- Trace of `simulate_unicode_input` (main.rs:816-855): per character one
`SendInput` of a Unicode press/release pair followed by a 1 ms sleep. -/
def simulate_unicode_input_trace (text : String) : List HookAction :=
  text.toList.flatMap (fun c => [HookAction.sendUnicode c, HookAction.sleep])

/-- The body of `if let Some(key) = key` (main.rs:533-570).  `SETTINGS` is
already locked on entry and `BUFFER` is locked first thing; the traces
record where each guard is dropped relative to synthesis:

* empty-buffer vowel fast path (main.rs:537-546): `simulate_unicode_input`
  runs with both guards still held, both drop at the `return`;
* engine match (main.rs:548-569): `drop(buffer)` precedes the backspace
  loop (each backspace followed by a 5 ms sleep) and the optional
  5 ms-sleep-then-insert, while the `SETTINGS` guard drops only at the
  `return`;
* no match: both guards drop at scope exit. -/
def hook_process_key (key : Char) (st : HookState) : HookResult × HookState :=
  let fast : Option String :=
    if st.buffer = [] ∧ (key = 'a' ∨ key = 'e' ∨ key = 'i' ∨ key = 'o' ∨ key = 'u') then
      match PHONETIC_MAP_get (String.mk [key]) with
      | some (BanglaChar.Vowel c) => some c
      | _ => none
    else none
  match fast with
  | some c =>
    ({ swallow := true, backspaces := 0, inserted := c,
       trace := HookAction.lockSettings :: HookAction.lockBuffer ::
         (simulate_unicode_input_trace c ++ [HookAction.unlockBuffer, HookAction.unlockSettings]) },
     st)
  | none =>
    match process_keyboard_input [key] st.buffer with
    | (some (output, backspaces), buf2) =>
      ({ swallow := true, backspaces := backspaces, inserted := output,
         trace := HookAction.lockSettings :: HookAction.lockBuffer :: HookAction.unlockBuffer ::
           ((List.replicate backspaces (simulate_backspace_trace ++ [HookAction.sleep])).flatten ++
            (if output = "" then []
             else HookAction.sleep :: simulate_unicode_input_trace output) ++
            [HookAction.unlockSettings]) },
       { st with buffer := buf2 })
    | (none, buf2) =>
      (pass_result [HookAction.lockSettings, HookAction.lockBuffer, HookAction.unlockBuffer,
                    HookAction.unlockSettings],
       { st with buffer := buf2 })

/-- The `WM_KEYDOWN | WM_SYSKEYDOWN` arm of the hook (main.rs:489-573):
Ctrl tracking, the Backspace bookkeeping pop, the Ctrl+Space language
toggle (which drops and re-acquires the `SETTINGS` guard), and the
delegation to the transliteration path. -/
def hook_keydown (vk_code : Nat) (st0 : HookState) : HookResult × HookState :=
  let st := if vk_code = VK_CONTROL then { st0 with ctrl_pressed := true } else st0
  if vk_code = VK_BACK then
    (pass_result [HookAction.lockBuffer, HookAction.unlockBuffer],
     { st with buffer := st.buffer.dropLast })
  else if st.settings.enabled then
    if st.settings.hotkey_enabled ∧ vk_code = VK_SPACE ∧ st.ctrl_pressed then
      ({ swallow := true, backspaces := 0, inserted := "",
         trace := [HookAction.lockSettings, HookAction.unlockSettings,
                   HookAction.lockSettings, HookAction.unlockSettings] },
       { st with settings := { st.settings with current_language :=
           if st.settings.current_language = "Bangla" then "English" else "Bangla" } })
    else if st.settings.current_language = "Bangla" ∧ st.settings.intercept_all then
      match key_of_vk vk_code with
      | some key => hook_process_key key st
      | none => (pass_result [HookAction.lockSettings, HookAction.unlockSettings], st)
    else (pass_result [HookAction.lockSettings, HookAction.unlockSettings], st)
  else (pass_result [HookAction.lockSettings, HookAction.unlockSettings], st)

/-- `keyboard_hook_proc` (main.rs:453-582) on one event
`(code, msg_type, vk_code, injected)`: negative hook codes and injected
events are forwarded untouched, keydowns go through `hook_keydown`, and
keyups only clear the Ctrl flag. -/
def keyboard_hook_proc (code : Int) (msg_type : Nat) (vk_code : Nat)
    (injected : Bool) (st : HookState) : HookResult × HookState :=
  if code < 0 then (pass_result [], st)
  else if injected then (pass_result [], st)
  else if msg_type = WM_KEYDOWN ∨ msg_type = WM_SYSKEYDOWN then
    hook_keydown vk_code st
  else if msg_type = WM_KEYUP ∨ msg_type = WM_SYSKEYUP then
    if vk_code = VK_CONTROL then (pass_result [], { st with ctrl_pressed := false })
    else (pass_result [], st)
  else (pass_result [], st)

/-- The `SETTINGS` initializer (main.rs:44-53). -/
def initial_settings : KeyboardSettings :=
  { enabled := true, layout := "Phonetic", current_language := "Bangla",
    use_suggestions := true, hotkey_enabled := true, theme := "Light",
    intercept_all := true }

/-- Process start: no Ctrl held, empty buffer, initial settings. -/
def initial_state : HookState :=
  { ctrl_pressed := false, buffer := [], settings := initial_settings }

/-- Lock-depth scanner over an action trace: `true` exactly when some
synthesis call or delay executes while at least one mutex guard is held. -/
def synth_while_locked : Nat → List HookAction → Bool
  | _, [] => false
  | depth, HookAction.lockSettings :: rest => synth_while_locked (depth + 1) rest
  | depth, HookAction.lockBuffer :: rest => synth_while_locked (depth + 1) rest
  | depth, HookAction.unlockSettings :: rest => synth_while_locked (depth - 1) rest
  | depth, HookAction.unlockBuffer :: rest => synth_while_locked (depth - 1) rest
  | depth, HookAction.sendBackspace :: rest =>
    (depth != 0) || synth_while_locked depth rest
  | depth, HookAction.sendUnicode _ :: rest =>
    (depth != 0) || synth_while_locked depth rest
  | depth, HookAction.sleep :: rest =>
    (depth != 0) || synth_while_locked depth rest

/-- The result produced by the empty-buffer vowel fast path for the
independent glyph `g`: swallow the event, inject `g`, issue no backspace,
and run the injection while both guards are still held. -/
def vowel_fast_result (g : String) : HookResult :=
  { swallow := true, backspaces := 0, inserted := g,
    trace := HookAction.lockSettings :: HookAction.lockBuffer ::
      (simulate_unicode_input_trace g ++
        [HookAction.unlockBuffer, HookAction.unlockSettings]) }

/- ## Supporting lemmas -/

/-- A string the rule table does not know is never a vowel-sign special
candidate: all five special keys are rule-table keys. -/
lemma vowel_sign_special_none (s : String) (h : PHONETIC_MAP_get s = none) :
    vowel_sign_special s = none := by
  unfold vowel_sign_special
  split_ifs with h1 h2 h3 h4 h5
  · subst h1; exact absurd h (by decide)
  · subst h2; exact absurd h (by decide)
  · subst h3; exact absurd h (by decide)
  · subst h4; exact absurd h (by decide)
  · subst h5; exact absurd h (by decide)
  · rfl

/-- If the trailing candidate of length `len` is not in the rule table,
the length-1 special case cannot fire either. -/
lemma try_special_none (buf : List Char) (len : Nat)
    (h : PHONETIC_MAP_get (String.mk (buf.drop (buf.length - len))) = none) :
    try_special buf len = none := by
  unfold try_special
  split_ifs with h1
  · cases hh : buf.get? (sub2_wrapping buf.length) with
    | none => rfl
    | some prev =>
      by_cases hic : is_consonant_char prev
      · simp only [hic, if_true]
        exact vowel_sign_special_none _ h
      · simp [hic]
  · rfl

/-- If the trailing candidate of length `len` is not in the rule table,
the exact-match case finds nothing. -/
lemma try_exact_none (buf : List Char) (len : Nat)
    (h : PHONETIC_MAP_get (String.mk (buf.drop (buf.length - len))) = none) :
    try_exact buf len = none := by
  unfold try_exact
  rw [h]

/-- If the trailing candidate of length `len` is not in the rule table,
the whole iteration at length `len` finds nothing. -/
lemma try_len_none (buf : List Char) (len : Nat)
    (h : PHONETIC_MAP_get (String.mk (buf.drop (buf.length - len))) = none) :
    try_len buf len = none := by
  unfold try_len
  rw [try_special_none buf len h, try_exact_none buf len h]

/-- If no trailing candidate of length `1..k` is in the rule table, the
scan finds nothing. -/
lemma match_scan_none (buf : List Char) (k : Nat)
    (h : ∀ len, 1 ≤ len → len ≤ k →
      PHONETIC_MAP_get (String.mk (buf.drop (buf.length - len))) = none) :
    match_scan buf k = none := by
  induction k with
  | zero => rfl
  | succ n ih =>
    show (match try_len buf (n + 1) with
          | some r => some r
          | none => match_scan buf n) = none
    rw [try_len_none buf (n + 1) (h (n + 1) (by omega) (by omega))]
    exact ih (fun len h1 h2 => h len h1 (by omega))

/-- A non-overflowing call whose trailing candidates all miss the rule
table is a no-op that retains the appended buffer. -/
lemma process_keyboard_input_none (key buffer : List Char)
    (hlen : (buffer ++ key).length ≤ 5)
    (h : ∀ len, 1 ≤ len → len ≤ min (buffer ++ key).length 3 →
      PHONETIC_MAP_get
        (String.mk ((buffer ++ key).drop ((buffer ++ key).length - len))) = none) :
    process_keyboard_input key buffer = (none, buffer ++ key) := by
  unfold process_keyboard_input
  rw [if_neg (by omega), match_scan_none _ _ h]

/-- A letter keydown in enabled Bangla interception mode reaches the
key-processing path with the lowercased character. -/
lemma hook_letter_keydown (st : HookState) (vk : Nat)
    (h1 : 0x41 ≤ vk) (h2 : vk ≤ 0x5A)
    (he : st.settings.enabled = true)
    (hl : st.settings.current_language = "Bangla")
    (hi : st.settings.intercept_all = true) :
    keyboard_hook_proc 0 WM_KEYDOWN vk false st =
      hook_process_key (Char.ofNat (vk - 0x41 + 0x61)) st := by
  have hc : ¬ vk = VK_CONTROL := by unfold VK_CONTROL; omega
  have hb : ¬ vk = VK_BACK := by unfold VK_BACK; omega
  have hs : ¬ vk = VK_SPACE := by unfold VK_SPACE; omega
  simp [keyboard_hook_proc, hook_keydown, key_of_vk, hc, hb, hs, he, hl, hi,
    h1, h2]

/-- The empty-buffer vowel fast path (main.rs:537-546), for a key whose
single-character rule is an independent vowel. -/
lemma hook_process_key_vowel (st : HookState) (key : Char) (g : String)
    (hb : st.buffer = [])
    (hv : key = 'a' ∨ key = 'e' ∨ key = 'i' ∨ key = 'o' ∨ key = 'u')
    (hm : PHONETIC_MAP_get (String.mk [key]) = some (BanglaChar.Vowel g)) :
    hook_process_key key st = (vowel_fast_result g, st) := by
  simp [hook_process_key, vowel_fast_result, hb, hv, hm]

/- ## Claims -/

/-- Claim C1, counterexample: starting from the initial state (empty
buffer, Bangla mode), typing `o` (VK 0x4F) and then `u` (VK 0x55) does
not resolve to the "ou" rule.  Both keystrokes take the empty-buffer
vowel fast path: the first injects the independent glyph "ও" and leaves
the state untouched, the second injects "উ"; the "ou" resolution (insert
"ঔ", erase 2) happens nowhere. -/
theorem claim_C1_counterexample :
    (keyboard_hook_proc 0 WM_KEYDOWN 0x4F false initial_state).1.inserted = "ও" ∧
    (keyboard_hook_proc 0 WM_KEYDOWN 0x4F false initial_state).2 = initial_state ∧
    (keyboard_hook_proc 0 WM_KEYDOWN 0x55 false
      (keyboard_hook_proc 0 WM_KEYDOWN 0x4F false initial_state).2).1.inserted = "উ" ∧
    ¬ ((keyboard_hook_proc 0 WM_KEYDOWN 0x55 false
          (keyboard_hook_proc 0 WM_KEYDOWN 0x4F false initial_state).2).1.inserted = "ঔ" ∧
       (keyboard_hook_proc 0 WM_KEYDOWN 0x55 false
          (keyboard_hook_proc 0 WM_KEYDOWN 0x4F false initial_state).2).1.backspaces = 2) := by
  decide

/-- Claim C1, amended: inside the transliteration engine the longest match
does win — with the buffer holding "o", the key "u" resolves to the "ou"
rule (insert "ঔ", erase 2) rather than to the "o" rule.  At the hook
level, however, the front-loaded vowel exception preempts this: typing
`o` then `u` from an empty buffer emits the independent glyphs "ও" and
"উ" immediately, each with an empty buffer, so the "ou" rule is never
consulted for word-initial `o`, `u`. -/
theorem claim_C1_amended :
    process_keyboard_input ['u'] ['o'] = (some ("ঔ", 2), []) ∧
    (keyboard_hook_proc 0 WM_KEYDOWN 0x4F false initial_state).1.swallow = true ∧
    (keyboard_hook_proc 0 WM_KEYDOWN 0x4F false initial_state).1.inserted = "ও" ∧
    (keyboard_hook_proc 0 WM_KEYDOWN 0x4F false initial_state).2.buffer = [] ∧
    (keyboard_hook_proc 0 WM_KEYDOWN 0x55 false
      (keyboard_hook_proc 0 WM_KEYDOWN 0x4F false initial_state).2).1.inserted = "উ" ∧
    (keyboard_hook_proc 0 WM_KEYDOWN 0x55 false
      (keyboard_hook_proc 0 WM_KEYDOWN 0x4F false initial_state).2).2.buffer = [] := by
  decide

/-- Claim C2, counterexample: typing `a` (VK 0x41) with an empty buffer
injects the independent vowel "অ" but issues zero backspaces, not one:
the physical keystroke is swallowed, so there is no Latin character to
erase and the fast path performs no erase at all. -/
theorem claim_C2_counterexample :
    (keyboard_hook_proc 0 WM_KEYDOWN 0x41 false initial_state).1.inserted = "অ" ∧
    (keyboard_hook_proc 0 WM_KEYDOWN 0x41 false initial_state).1.backspaces = 0 ∧
    ¬ (keyboard_hook_proc 0 WM_KEYDOWN 0x41 false initial_state).1.backspaces = 1 := by
  decide

/-- Claim C2, amended: for every single-character vowel key `a e i o u`
mapped to its independent vowel glyph, a keydown with an empty
`InputBuffer` (in enabled Bangla interception mode) swallows the event
and immediately injects the glyph with zero backspaces, leaving the
whole state unchanged. -/
theorem claim_C2_amended (st : HookState) (hb : st.buffer = [])
    (he : st.settings.enabled = true)
    (hl : st.settings.current_language = "Bangla")
    (hi : st.settings.intercept_all = true) :
    keyboard_hook_proc 0 WM_KEYDOWN 0x41 false st = (vowel_fast_result "অ", st) ∧
    keyboard_hook_proc 0 WM_KEYDOWN 0x45 false st = (vowel_fast_result "এ", st) ∧
    keyboard_hook_proc 0 WM_KEYDOWN 0x49 false st = (vowel_fast_result "ই", st) ∧
    keyboard_hook_proc 0 WM_KEYDOWN 0x4F false st = (vowel_fast_result "ও", st) ∧
    keyboard_hook_proc 0 WM_KEYDOWN 0x55 false st = (vowel_fast_result "উ", st) := by
  refine ⟨?_, ?_, ?_, ?_, ?_⟩ <;>
    · rw [hook_letter_keydown st _ (by norm_num) (by norm_num) he hl hi]
      exact hook_process_key_vowel st _ _ hb (by decide) (by decide)

/-- Witness for claim C2's amended theorem at the initial state. -/
theorem claim_C2_witness :
    keyboard_hook_proc 0 WM_KEYDOWN 0x41 false initial_state =
      (vowel_fast_result "অ", initial_state) ∧
    keyboard_hook_proc 0 WM_KEYDOWN 0x45 false initial_state =
      (vowel_fast_result "এ", initial_state) ∧
    keyboard_hook_proc 0 WM_KEYDOWN 0x49 false initial_state =
      (vowel_fast_result "ই", initial_state) ∧
    keyboard_hook_proc 0 WM_KEYDOWN 0x4F false initial_state =
      (vowel_fast_result "ও", initial_state) ∧
    keyboard_hook_proc 0 WM_KEYDOWN 0x55 false initial_state =
      (vowel_fast_result "উ", initial_state) :=
  claim_C2_amended initial_state rfl rfl rfl rfl

/-- Claim C3, counterexample: typing `k` then `a` from the initial state
does not yield the instruction {insert "", erase 2} on the second
keystroke.  The `k` already matched on the first keystroke (inserting "ক"
with one backspace and clearing the buffer), so the `a` arrives with an
empty buffer and takes the vowel fast path, injecting "অ" with zero
backspaces. -/
theorem claim_C3_counterexample :
    (keyboard_hook_proc 0 WM_KEYDOWN 0x41 false
      (keyboard_hook_proc 0 WM_KEYDOWN 0x4B false initial_state).2).1.inserted = "অ" ∧
    (keyboard_hook_proc 0 WM_KEYDOWN 0x41 false
      (keyboard_hook_proc 0 WM_KEYDOWN 0x4B false initial_state).2).1.backspaces = 0 ∧
    ¬ ((keyboard_hook_proc 0 WM_KEYDOWN 0x41 false
          (keyboard_hook_proc 0 WM_KEYDOWN 0x4B false initial_state).2).1.inserted = "" ∧
       (keyboard_hook_proc 0 WM_KEYDOWN 0x41 false
          (keyboard_hook_proc 0 WM_KEYDOWN 0x4B false initial_state).2).1.backspaces = 2) := by
  decide

/-- Claim C3, amended: the inherent-vowel elision exists in the engine but
with erase count 1, and only when the buffer still holds the consonant:
`process_keyboard_input` on buffer "k" with key "a" yields
{insert "", erase 1}.  Through the hook, `k` resolves immediately
(insert "ক", one backspace, buffer cleared), so the following `a` takes
the empty-buffer vowel fast path and injects "অ" with zero backspaces. -/
theorem claim_C3_amended :
    process_keyboard_input ['a'] ['k'] = (some ("", 1), []) ∧
    (keyboard_hook_proc 0 WM_KEYDOWN 0x4B false initial_state).1.inserted = "ক" ∧
    (keyboard_hook_proc 0 WM_KEYDOWN 0x4B false initial_state).1.backspaces = 1 ∧
    (keyboard_hook_proc 0 WM_KEYDOWN 0x4B false initial_state).2.buffer = [] ∧
    (keyboard_hook_proc 0 WM_KEYDOWN 0x41 false
      (keyboard_hook_proc 0 WM_KEYDOWN 0x4B false initial_state).2).1.inserted = "অ" ∧
    (keyboard_hook_proc 0 WM_KEYDOWN 0x41 false
      (keyboard_hook_proc 0 WM_KEYDOWN 0x4B false initial_state).2).1.backspaces = 0 := by
  decide

/-- Claim C6: an injected event is always propagated with no synthesis
and leaves the entire state (buffer, Ctrl flag, settings) unchanged,
whatever the hook code, message type and virtual key are. -/
theorem claim_C6 (code : Int) (msg_type vk_code : Nat) (st : HookState) :
    keyboard_hook_proc code msg_type vk_code true st = (pass_result [], st) := by
  unfold keyboard_hook_proc
  by_cases h : code < 0 <;> simp [h]

/-- Claim C10, counterexample: in the empty-buffer vowel fast path
(typing `a` from the initial state) the Unicode injection and its delay
execute while both the `SETTINGS` and `BUFFER` guards are still held, so
it is not the case that every lock is released before a sleeping
synthesis call executes. -/
theorem claim_C10_counterexample :
    synth_while_locked 0
      (keyboard_hook_proc 0 WM_KEYDOWN 0x41 false initial_state).1.trace = true := by
  decide

/-- Claim C10, amended: in the engine-match path the `BUFFER` guard is
dropped before any synthesis (`drop(buffer)` precedes the backspace loop),
but the `SETTINGS` guard is held across every synthesis call and delay and
is released only on return; in the empty-buffer vowel fast path both
guards are held during the injection.  Shown by the full ordered traces
of typing `k` and of typing `a` from the initial state. -/
theorem claim_C10_amended :
    (keyboard_hook_proc 0 WM_KEYDOWN 0x4B false initial_state).1.trace =
      [HookAction.lockSettings, HookAction.lockBuffer, HookAction.unlockBuffer,
       HookAction.sendBackspace, HookAction.sleep, HookAction.sleep,
       HookAction.sendUnicode 'ক', HookAction.sleep, HookAction.unlockSettings] ∧
    (keyboard_hook_proc 0 WM_KEYDOWN 0x41 false initial_state).1.trace =
      [HookAction.lockSettings, HookAction.lockBuffer, HookAction.sendUnicode 'অ',
       HookAction.sleep, HookAction.unlockBuffer, HookAction.unlockSettings] := by
  decide

/-- Unfolding lemma: the scan at fuel 0 finds nothing. -/
lemma match_scan_zero (buf : List Char) : match_scan buf 0 = none := rfl

/-- Unfolding lemma: the scan at fuel 1 is the single iteration at
candidate length 1. -/
lemma match_scan_one (buf : List Char) :
    match_scan buf 1 =
      (match try_len buf 1 with
       | some r => some r
       | none => none) := rfl

/-- try_len reduced from the values of its two cases (no-match case). -/
lemma try_len_eq_none_of (buf : List Char) (len : Nat)
    (h1 : try_special buf len = none) (h2 : try_exact buf len = none) :
    try_len buf len = none := by
  unfold try_len
  rw [h1, h2]

/-- try_len reduced from the values of its two cases (match case). -/
lemma try_len_eq_some_of (buf : List Char) (len : Nat) (r : String × Nat)
    (h1 : try_special buf len = none) (h2 : try_exact buf len = some r) :
    try_len buf len = some r := by
  unfold try_len
  rw [h1, h2]

/-- On a length-1 buffer the special case looks up the wrapped index
`2 ^ 64 - 1`, which is out of range, so the special case yields nothing. -/
lemma try_special_single (c : Char) : try_special [c] 1 = none := by
  have h2 : [c].get? (sub2_wrapping 1) = none := by
    rw [show sub2_wrapping 1 = 2 ^ 64 - 1 from by decide]
    exact List.get?_eq_none.mpr (by norm_num)
  unfold try_special
  rw [if_pos rfl]
  simp only [List.length_cons, List.length_nil]
  rw [h2]

/-- On a length-1 buffer the exact-match case is the plain lookup of the
single character, with no consonant context. -/
lemma try_exact_single (c : Char) :
    try_exact [c] 1 =
      (PHONETIC_MAP_get (String.mk [c])).map
        (fun bc => (glyph_output bc false, 1)) := by
  unfold try_exact
  have hd : List.drop (List.length [c] - 1) [c] = [c] := by simp
  rw [hd]
  have hpw : prev_was_consonant [c] 1 = false := by
    unfold prev_was_consonant
    rw [if_neg (by simp)]
  rw [hpw]
  cases hm : PHONETIC_MAP_get (String.mk [c]) <;> rfl

/-- Claim C4: for any single-character key arriving with an empty buffer
(so the buffer has length 1 after the append), the length-1 special case
evaluates the wrapping index expression `buffer_str.len() - 2`, which
underflows to `2 ^ 64 - 1`; the out-of-range lookup yields `none` rather
than a panic or out-of-bounds access (the model is a total function), and
the call proceeds to the exact rule-table match on the single character. -/
theorem claim_C4 (c : Char) :
    sub2_wrapping 1 = 2 ^ 64 - 1 ∧
    [c].get? (sub2_wrapping 1) = none ∧
    (process_keyboard_input [c] []).1 =
      (PHONETIC_MAP_get (String.mk [c])).map
        (fun bc => (glyph_output bc false, 1)) ∧
    (process_keyboard_input [c] []).2 =
      (if (PHONETIC_MAP_get (String.mk [c])).isSome = true then [] else [c]) := by
  have h2 : [c].get? (sub2_wrapping 1) = none := by
    rw [show sub2_wrapping 1 = 2 ^ 64 - 1 from by decide]
    exact List.get?_eq_none.mpr (by norm_num)
  have hp : process_keyboard_input [c] [] =
      (match match_scan [c] 1 with
       | some r => (some r, ([] : List Char))
       | none => (none, [c])) := by
    unfold process_keyboard_input
    rw [show ([] ++ [c] : List Char) = [c] from by simp]
    rw [if_neg (by simp)]
    rw [show min ([c] : List Char).length 3 = 1 from by simp]
  cases hm : PHONETIC_MAP_get (String.mk [c]) with
  | none =>
    have htl : try_len [c] 1 = none :=
      try_len_eq_none_of _ _ (try_special_single c)
        (by rw [try_exact_single c, hm]; rfl)
    have hms : match_scan [c] 1 = none := by
      rw [match_scan_one, htl]
    rw [hp, hms]
    exact ⟨by decide, h2, rfl, rfl⟩
  | some bc =>
    have htl : try_len [c] 1 = some (glyph_output bc false, 1) :=
      try_len_eq_some_of _ _ _ (try_special_single c)
        (by rw [try_exact_single c, hm]; rfl)
    have hms : match_scan [c] 1 = some (glyph_output bc false, 1) := by
      rw [match_scan_one, htl]
    rw [hp, hms]
    exact ⟨by decide, h2, rfl, rfl⟩
/-- Claim C5, counterexample: with the keyboard disabled
(`enabled = false`), a Space keydown while Ctrl is held and
`hotkey_enabled = true` does not toggle the language and is propagated,
so the claim's conditions are not sufficient for the toggle. -/
theorem claim_C5_counterexample :
    (keyboard_hook_proc 0 WM_KEYDOWN 0x20 false
      { ctrl_pressed := true, buffer := [],
        settings := { initial_settings with enabled := false } }).2.settings.current_language
      = "Bangla" ∧
    (keyboard_hook_proc 0 WM_KEYDOWN 0x20 false
      { ctrl_pressed := true, buffer := [],
        settings := { initial_settings with enabled := false } }).1.swallow = false := by
  decide

/-- Claim C5, amended: with the keyboard additionally enabled
(`enabled = true`), a Space keydown while Ctrl is held and
`hotkey_enabled = true` toggles `current_language` exactly once between
"Bangla" and "English", swallows the event, and performs no text
processing (no backspaces, no insertion, buffer untouched); a Space
keydown without Ctrl held never changes the settings or the buffer. -/
theorem claim_C5_amended :
    (∀ st : HookState, st.settings.enabled = true →
      st.settings.hotkey_enabled = true → st.ctrl_pressed = true →
      (keyboard_hook_proc 0 WM_KEYDOWN VK_SPACE false st).2.settings.current_language =
        (if st.settings.current_language = "Bangla" then "English" else "Bangla") ∧
      (keyboard_hook_proc 0 WM_KEYDOWN VK_SPACE false st).1.swallow = true ∧
      (keyboard_hook_proc 0 WM_KEYDOWN VK_SPACE false st).1.backspaces = 0 ∧
      (keyboard_hook_proc 0 WM_KEYDOWN VK_SPACE false st).1.inserted = "" ∧
      (keyboard_hook_proc 0 WM_KEYDOWN VK_SPACE false st).2.buffer = st.buffer) ∧
    (∀ st : HookState, st.ctrl_pressed = false →
      (keyboard_hook_proc 0 WM_KEYDOWN VK_SPACE false st).2.settings = st.settings ∧
      (keyboard_hook_proc 0 WM_KEYDOWN VK_SPACE false st).2.buffer = st.buffer) := by
  constructor
  · intro st he hh hc
    simp [keyboard_hook_proc, hook_keydown, he, hh, hc, VK_SPACE, VK_CONTROL,
      VK_BACK, WM_KEYDOWN, WM_SYSKEYDOWN]
  · intro st hc
    by_cases he : st.settings.enabled = true
    · by_cases hB : st.settings.current_language = "Bangla" ∧
        st.settings.intercept_all = true
      · simp [keyboard_hook_proc, hook_keydown, key_of_vk, hc, he, hB, VK_SPACE, VK_CONTROL, VK_BACK, WM_KEYDOWN, WM_SYSKEYDOWN]
      · simp [keyboard_hook_proc, hook_keydown, key_of_vk, hc, he, hB, VK_SPACE, VK_CONTROL, VK_BACK, WM_KEYDOWN, WM_SYSKEYDOWN]
    · simp [keyboard_hook_proc, hook_keydown, key_of_vk, hc, he, VK_SPACE, VK_CONTROL, VK_BACK, WM_KEYDOWN, WM_SYSKEYDOWN]

/-- Witness for claim C5's amended theorem: toggling from the initial
state with Ctrl held, and a Ctrl-free Space at the initial state. -/
theorem claim_C5_witness :
    ((keyboard_hook_proc 0 WM_KEYDOWN VK_SPACE false
        { initial_state with ctrl_pressed := true }).2.settings.current_language =
      (if ({ initial_state with ctrl_pressed := true } : HookState).settings.current_language
          = "Bangla" then "English" else "Bangla") ∧
     (keyboard_hook_proc 0 WM_KEYDOWN VK_SPACE false
        { initial_state with ctrl_pressed := true }).1.swallow = true ∧
     (keyboard_hook_proc 0 WM_KEYDOWN VK_SPACE false
        { initial_state with ctrl_pressed := true }).1.backspaces = 0 ∧
     (keyboard_hook_proc 0 WM_KEYDOWN VK_SPACE false
        { initial_state with ctrl_pressed := true }).1.inserted = "" ∧
     (keyboard_hook_proc 0 WM_KEYDOWN VK_SPACE false
        { initial_state with ctrl_pressed := true }).2.buffer =
       ({ initial_state with ctrl_pressed := true } : HookState).buffer) ∧
    ((keyboard_hook_proc 0 WM_KEYDOWN VK_SPACE false initial_state).2.settings =
       initial_state.settings ∧
     (keyboard_hook_proc 0 WM_KEYDOWN VK_SPACE false initial_state).2.buffer =
       initial_state.buffer) :=
  ⟨claim_C5_amended.1 { initial_state with ctrl_pressed := true } rfl rfl rfl,
   claim_C5_amended.2 initial_state rfl⟩
/-- A genuine (non-injected) keydown event with hook code 0 is handled by
the keydown arm. -/
lemma keyboard_hook_proc_keydown (vk : Nat) (st : HookState) :
    keyboard_hook_proc 0 WM_KEYDOWN vk false st = hook_keydown vk st := by
  unfold keyboard_hook_proc
  rw [if_neg (by decide : ¬ ((0 : Int) < 0)), if_neg (by decide : ¬ (false = true)),
    if_pos (Or.inl rfl : WM_KEYDOWN = WM_KEYDOWN ∨ WM_KEYDOWN = WM_SYSKEYDOWN)]

/-- Claim C9, counterexample: an unrelated key (VK 0xBC, a punctuation
key) arriving while the buffer holds "q" leaves the buffer holding "q":
the InputBuffer is not cleared by unrelated keys. -/
theorem claim_C9_counterexample :
    (keyboard_hook_proc 0 WM_KEYDOWN 0xBC false
      { ctrl_pressed := false, buffer := ['q'], settings := initial_settings }).2.buffer
      = ['q'] ∧
    (['q'] : List Char) ≠ [] := by
  decide

/-- Claim C9, amended: a keydown for any key the engine does not handle
(not a letter, not a digit) other than Backspace leaves the InputBuffer
exactly unchanged (rather than clearing it) and performs no text
synthesis; Backspace instead pops one character. -/
theorem claim_C9_amended (st : HookState) (vk : Nat)
    (hk : key_of_vk vk = none) (hb : ¬ vk = VK_BACK) :
    (keyboard_hook_proc 0 WM_KEYDOWN vk false st).2.buffer = st.buffer ∧
    (keyboard_hook_proc 0 WM_KEYDOWN vk false st).1.backspaces = 0 ∧
    (keyboard_hook_proc 0 WM_KEYDOWN vk false st).1.inserted = "" := by
  rw [keyboard_hook_proc_keydown]
  by_cases hc : vk = VK_CONTROL
  · subst hc
    simp only [hook_keydown, hk, hb, if_true, if_false, if_pos rfl]
    split_ifs <;> simp_all [VK_CONTROL, VK_BACK, VK_SPACE, pass_result]
  · simp only [hook_keydown, hk, if_neg hc, if_neg hb]
    split_ifs <;> simp_all [pass_result]
/-- Witness for claim C9's amended theorem: the punctuation key VK 0xBC
with buffer "q". -/
theorem claim_C9_witness :
    (keyboard_hook_proc 0 WM_KEYDOWN 0xBC false
      { ctrl_pressed := false, buffer := ['q'], settings := initial_settings }).2.buffer =
      ({ ctrl_pressed := false, buffer := ['q'],
         settings := initial_settings } : HookState).buffer ∧
    (keyboard_hook_proc 0 WM_KEYDOWN 0xBC false
      { ctrl_pressed := false, buffer := ['q'], settings := initial_settings }).1.backspaces = 0 ∧
    (keyboard_hook_proc 0 WM_KEYDOWN 0xBC false
      { ctrl_pressed := false, buffer := ['q'], settings := initial_settings }).1.inserted = "" :=
  claim_C9_amended _ 0xBC (by decide) (by decide)
/-- Claim C7: (1) typing six characters none of whose contiguous
subsequences of length 1-3 is a rule key produces the no-op outcome at
every one of the six calls and leaves the buffer empty after the sixth
(the first five accumulate, the sixth overflows the threshold 5 and
clears), so a seventh character starts from a fresh buffer; (2) in
general the buffer length after any single-character call never exceeds
the overflow threshold 5. -/
theorem claim_C7 :
    (∀ c1 c2 c3 c4 c5 c6 : Char,
      (∀ i, i < 6 → ∀ len, len < 3 →
        PHONETIC_MAP_get
          (String.mk (([c1, c2, c3, c4, c5, c6].drop i).take (len + 1))) = none) →
      run_engine [c1, c2, c3, c4, c5, c6] [] =
        ([none, none, none, none, none, none], [])) ∧
    (∀ (k : Char) (buffer : List Char), buffer.length ≤ 5 →
      ((process_keyboard_input [k] buffer).2).length ≤ 5) := by
  constructor
  · intro c1 c2 c3 c4 c5 c6 H
    have s1 : process_keyboard_input [c1] [] = (none, [c1]) := by
      apply process_keyboard_input_none _ _ (by simp)
      intro len h1 h2
      simp only [List.nil_append, List.length_cons, List.length_nil] at h2
      have h2' : len ≤ 1 := by omega
      interval_cases len
      simpa using H 0 (by norm_num) 0 (by norm_num)
    have s2 : process_keyboard_input [c2] [c1] = (none, [c1, c2]) := by
      apply process_keyboard_input_none _ _ (by simp)
      intro len h1 h2
      simp only [List.cons_append, List.nil_append, List.length_cons,
        List.length_nil] at h2
      have h2' : len ≤ 2 := by omega
      interval_cases len
      · simpa using H 1 (by norm_num) 0 (by norm_num)
      · simpa using H 0 (by norm_num) 1 (by norm_num)
    have s3 : process_keyboard_input [c3] [c1, c2] = (none, [c1, c2, c3]) := by
      apply process_keyboard_input_none _ _ (by simp)
      intro len h1 h2
      simp only [List.cons_append, List.nil_append, List.length_cons,
        List.length_nil] at h2
      have h2' : len ≤ 3 := by omega
      interval_cases len
      · simpa using H 2 (by norm_num) 0 (by norm_num)
      · simpa using H 1 (by norm_num) 1 (by norm_num)
      · simpa using H 0 (by norm_num) 2 (by norm_num)
    have s4 : process_keyboard_input [c4] [c1, c2, c3] = (none, [c1, c2, c3, c4]) := by
      apply process_keyboard_input_none _ _ (by simp)
      intro len h1 h2
      simp only [List.cons_append, List.nil_append, List.length_cons,
        List.length_nil] at h2
      have h2' : len ≤ 3 := by omega
      interval_cases len
      · simpa using H 3 (by norm_num) 0 (by norm_num)
      · simpa using H 2 (by norm_num) 1 (by norm_num)
      · simpa using H 1 (by norm_num) 2 (by norm_num)
    have s5 : process_keyboard_input [c5] [c1, c2, c3, c4] =
        (none, [c1, c2, c3, c4, c5]) := by
      apply process_keyboard_input_none _ _ (by simp)
      intro len h1 h2
      simp only [List.cons_append, List.nil_append, List.length_cons,
        List.length_nil] at h2
      have h2' : len ≤ 3 := by omega
      interval_cases len
      · simpa using H 4 (by norm_num) 0 (by norm_num)
      · simpa using H 3 (by norm_num) 1 (by norm_num)
      · simpa using H 2 (by norm_num) 2 (by norm_num)
    have s6 : process_keyboard_input [c6] [c1, c2, c3, c4, c5] = (none, []) := by
      unfold process_keyboard_input
      rw [if_pos (by simp)]
    simp only [run_engine, s1, s2, s3, s4, s5, s6]
  · intro k buffer hlen
    unfold process_keyboard_input
    split_ifs with ho
    · simp
    · cases hm : match_scan (buffer ++ [k]) (min (buffer ++ [k]).length 3) with
      | some r => simp
      | none =>
        simp only [List.length_append, List.length_cons, List.length_nil] at ho
        simp only [List.length_append, List.length_cons, List.length_nil]
        omega

/-- Witness for claim C7 at the concrete non-matching keys "qwxqwx" and a
full 5-character buffer. -/
theorem claim_C7_witness :
    run_engine ['q', 'w', 'x', 'q', 'w', 'x'] [] =
      ([none, none, none, none, none, none], []) ∧
    ((process_keyboard_input ['q'] ['a', 'b', 'c', 'd', 'e']).2).length ≤ 5 :=
  ⟨claim_C7.1 'q' 'w' 'x' 'q' 'w' 'x' (by decide),
   claim_C7.2 'q' ['a', 'b', 'c', 'd', 'e'] (by decide)⟩
/-- Whenever the vowel-sign table answers, the reported erase count is 1. -/
lemma vowel_sign_special_shape (s : String) (out : String) (n : Nat)
    (h : vowel_sign_special s = some (out, n)) : n = 1 := by
  unfold vowel_sign_special at h
  split_ifs at h <;> simp_all

/-- Whenever the length-1 special case answers, the candidate length is 1,
the erase count is 1, and the answer comes from the vowel-sign table for
the last character. -/
lemma try_special_shape (buf : List Char) (len : Nat) (out : String) (n : Nat)
    (h : try_special buf len = some (out, n)) :
    len = 1 ∧ n = 1 ∧
    vowel_sign_special (String.mk (buf.drop (buf.length - 1))) = some (out, n) := by
  unfold try_special at h
  split_ifs at h with h1
  · subst h1
    cases hh : buf.get? (sub2_wrapping buf.length) with
    | none => rw [hh] at h; simp at h
    | some prev =>
      rw [hh] at h
      have h2 : (if is_consonant_char prev = true then
          vowel_sign_special (String.mk (buf.drop (buf.length - 1)))
        else none) = some (out, n) := h
      split_ifs at h2 with hic
      exact ⟨rfl, vowel_sign_special_shape _ _ _ h2, h2⟩

/-- Whenever the exact-match case answers, the erase count equals the
candidate length and the trailing candidate is a rule-table key. -/
lemma try_exact_shape (buf : List Char) (len : Nat) (out : String) (n : Nat)
    (h : try_exact buf len = some (out, n)) :
    n = len ∧
    (PHONETIC_MAP_get (String.mk (buf.drop (buf.length - len)))).isSome = true := by
  unfold try_exact at h
  cases hm : PHONETIC_MAP_get (String.mk (buf.drop (buf.length - len))) with
  | none => rw [hm] at h; simp at h
  | some bc =>
    rw [hm] at h
    simp at h
    exact ⟨h.2.symm, by simp⟩

/-- Whenever one scan iteration answers, the answer is the length-1
special case (erase count 1) or an exact match of the full candidate
length. -/
lemma try_len_shape (buf : List Char) (len : Nat) (out : String) (n : Nat)
    (h : try_len buf len = some (out, n)) :
    (n = 1 ∧
      vowel_sign_special (String.mk (buf.drop (buf.length - 1))) = some (out, n)) ∨
    (n = len ∧
      (PHONETIC_MAP_get (String.mk (buf.drop (buf.length - n)))).isSome = true) := by
  unfold try_len at h
  cases hsp : try_special buf len with
  | some r =>
    rw [hsp] at h
    simp at h
    obtain ⟨h1, h2, h3⟩ := try_special_shape buf len out n (by rw [hsp, h])
    exact Or.inl ⟨h2, h3⟩
  | none =>
    rw [hsp] at h
    simp at h
    obtain ⟨hn, hsome⟩ := try_exact_shape buf len out n h
    exact Or.inr ⟨hn, by rw [hn]; exact hsome⟩

/-- Unfolding lemma: the scan at fuel `n + 1` is one iteration at
candidate length `n + 1` followed, on failure, by the scan at fuel `n`. -/
lemma match_scan_succ (buf : List Char) (n : Nat) :
    match_scan buf (n + 1) =
      (match try_len buf (n + 1) with
       | some r => some r
       | none => match_scan buf n) := rfl

/-- Whenever the scan answers, the erase count is between 1 and the scan
bound and the answer is a special-case or exact match of that length. -/
lemma match_scan_shape (buf : List Char) (k : Nat) (out : String) (n : Nat)
    (h : match_scan buf k = some (out, n)) :
    1 ≤ n ∧ n ≤ k ∧
    (vowel_sign_special (String.mk (buf.drop (buf.length - 1))) = some (out, n) ∨
     (PHONETIC_MAP_get (String.mk (buf.drop (buf.length - n)))).isSome = true) := by
  induction k with
  | zero => rw [match_scan_zero] at h; simp at h
  | succ m ih =>
    rw [match_scan_succ] at h
    cases htl : try_len buf (m + 1) with
    | none =>
      rw [htl] at h
      simp at h
      obtain ⟨a, b, c⟩ := ih h
      exact ⟨a, by omega, c⟩
    | some r =>
      rw [htl] at h
      simp at h
      rcases try_len_shape buf (m + 1) out n (by rw [htl, h]) with ⟨h1, h2⟩ | ⟨h1, h2⟩
      · exact ⟨by omega, by omega, Or.inl h2⟩
      · exact ⟨by omega, by omega, Or.inr h2⟩

/-- Claim C8: whenever the engine resolves a match, the erase count `n`
satisfies `1 ≤ n ≤ 3` and never exceeds the number of characters in the
buffer after the append (the Latin characters typed since the last
clear), and `n` is exactly the length of the candidate that matched: the
trailing character for the length-1 special case, or a trailing rule key
of length `n`. -/
theorem claim_C8 (key buffer : List Char) (out : String) (n : Nat)
    (h : (process_keyboard_input key buffer).1 = some (out, n)) :
    1 ≤ n ∧ n ≤ 3 ∧ n ≤ (buffer ++ key).length ∧
    (vowel_sign_special
        (String.mk ((buffer ++ key).drop ((buffer ++ key).length - 1)))
        = some (out, n) ∨
     (PHONETIC_MAP_get
        (String.mk ((buffer ++ key).drop ((buffer ++ key).length - n)))).isSome
        = true) := by
  by_cases ho : (buffer ++ key).length > 5
  · exfalso
    have hp : process_keyboard_input key buffer = (none, []) := by
      unfold process_keyboard_input
      rw [if_pos ho]
    rw [hp] at h
    simp at h
  · cases hm : match_scan (buffer ++ key) (min (buffer ++ key).length 3) with
    | none =>
      exfalso
      have hp : process_keyboard_input key buffer = (none, buffer ++ key) := by
        unfold process_keyboard_input
        rw [if_neg ho, hm]
      rw [hp] at h
      simp at h
    | some r =>
      have hp : process_keyboard_input key buffer = (some r, []) := by
        unfold process_keyboard_input
        rw [if_neg ho, hm]
      rw [hp] at h
      simp at h
      obtain ⟨a, b, c⟩ := match_scan_shape _ _ out n (by rw [hm, h])
      have b2 := Nat.le_min.mp b
      exact ⟨a, b2.2, b2.1, c⟩

/-- Witness for claim C8: the key "k" on an empty buffer resolves with
erase count 1 via the exact match of the trailing candidate "k". -/
theorem claim_C8_witness :
    (process_keyboard_input ['k'] []).1 = some ("ক", 1) ∧
    (1 ≤ 1 ∧ 1 ≤ 3 ∧ 1 ≤ (([] : List Char) ++ ['k']).length ∧
      (vowel_sign_special
          (String.mk ((([] : List Char) ++ ['k']).drop
            ((([] : List Char) ++ ['k']).length - 1)))
          = some ("ক", 1) ∨
       (PHONETIC_MAP_get
          (String.mk ((([] : List Char) ++ ['k']).drop
            ((([] : List Char) ++ ['k']).length - 1)))).isSome
          = true)) :=
  ⟨by decide, claim_C8 ['k'] [] "ক" 1 (by decide)⟩

/-- Witness for claim C4 at the concrete key character "k". -/
theorem claim_C4_witness :
    sub2_wrapping 1 = 2 ^ 64 - 1 ∧
    ['k'].get? (sub2_wrapping 1) = none ∧
    (process_keyboard_input ['k'] []).1 =
      (PHONETIC_MAP_get (String.mk ['k'])).map
        (fun bc => (glyph_output bc false, 1)) ∧
    (process_keyboard_input ['k'] []).2 =
      (if (PHONETIC_MAP_get (String.mk ['k'])).isSome = true then [] else ['k']) :=
  claim_C4 'k'

/-- Witness for claim C6 at a concrete injected letter keydown. -/
theorem claim_C6_witness :
    keyboard_hook_proc 0 WM_KEYDOWN 0x41 true initial_state =
      (pass_result [], initial_state) :=
  claim_C6 0 WM_KEYDOWN 0x41 initial_state
